import Mathlib

/-!
Verification development for the Unipro-RealEstate listings backend.

The definitions below are a shallow embedding of the listing CRUD and
image-upload pipeline of the repository:

* `parsePrice`, `intLocale` and the string helpers embed the helper
  functions of the property controller (part_004 of the unnamed sources).
* `addProperty`, `updateProperty`, `deleteImage`, `deleteProperty` embed
  the four controller operations of part_004 over an explicit list-based
  record store; remote (Cloudinary) calls are passed in as explicit
  outcome parameters since the controller only observes their results.
* `processUploadedImages`, `validationGuardRejects`, `listingValidationErrors`
  and `postAdd` embed the upload middleware and the POST /add route wiring
  of routes/seo.js (second document).
* `getPropertiesHandler` embeds the GET /api/properties handler of
  server.js, with `jsRegexTestCI` modelling the JavaScript construction
  new RegExp(param, "i") applied to patterns whose only metacharacter is
  the dot wildcard.
* `propertyImagesValidator` and `landImagesAccept` embed the two Mongoose
  image validators (server.js propertySchema and models/Property.js
  landListingSchema).

Machine floats never influence the verified properties: prices are
modelled with Int, with JavaScript rounding made explicit.
-/

namespace Unipro

/-! ## JavaScript value primitives -/

/-- A JSON-ish request-body value: a number, a string, or an array of
strings.  Request bodies deliver fields as these. -/
inductive JsVal where
  | num (n : Int)
  | str (s : String)
  | arr (xs : List String)
deriving DecidableEq

/-- JavaScript truthiness of a value: zero and the empty string are falsy,
arrays are always truthy. -/
def JsVal.truthy : JsVal → Bool
  | .num n => n != 0
  | .str s => s != ""
  | .arr _ => true

/-- Truthiness of a possibly-absent field (absent is falsy). -/
def jsTruthy : Option JsVal → Bool
  | none => false
  | some v => v.truthy

/-- Truthiness of a possibly-absent string field. -/
def strTruthy : Option String → Bool
  | none => false
  | some s => s != ""

/-- Decimal digit character for a value below ten. -/
def natDigitChar (d : Nat) : Char := Char.ofNat ('0'.toNat + d)

/-- Decimal digits of a natural number, least significant first; the
fuel argument bounds the digit count and is always ample. -/
def natDigitsRevAux : Nat → Nat → List Char
  | 0, _ => []
  | fuel + 1, n =>
    if n < 10 then [natDigitChar n]
    else natDigitChar (n % 10) :: natDigitsRevAux fuel (n / 10)

/-- Decimal digits of a natural number, least significant first. -/
def natDigitsRev (n : Nat) : List Char := natDigitsRevAux (n + 1) n

/-- Decimal rendering of a natural number. -/
def natToString (n : Nat) : String := ⟨(natDigitsRev n).reverse⟩

/-- JavaScript toString on a number. -/
def intToString : Int → String
  | .ofNat n => natToString n
  | .negSucc m => "-" ++ natToString (m + 1)

/-- JavaScript toString coercion used when a value is fed to a string
operation (arrays join with commas). -/
def jsAsString : JsVal → String
  | .str s => s
  | .num n => intToString n
  | .arr xs => String.intercalate "," xs

/-- Numeric value of a field set through a Mongoose number path. -/
def digitVal (c : Char) : Nat := c.toNat - '0'.toNat

/-- Value of a digit run read most-significant first. -/
def digitsToNat (cs : List Char) : Nat :=
  cs.foldl (fun acc c => acc * 10 + digitVal c) 0

/-- Leading decimal digits of a character list. -/
def takeDigits (cs : List Char) : List Char := cs.takeWhile Char.isDigit

/-- Remainder after the leading decimal digits. -/
def dropDigits (cs : List Char) : List Char := cs.dropWhile Char.isDigit

/-- Math.round(parseFloat(s)) for a decimal numeral without exponent:
optional sign, integer digits, optional fraction; none when parseFloat
would give NaN.  JavaScript Math.round sends halves toward positive
infinity, which the two branches make explicit. -/
def parseFloatRoundCore (cs : List Char) : Option Int :=
  let signSplit : Bool × List Char :=
    match cs with
    | '-' :: t => (true, t)
    | '+' :: t => (false, t)
    | _ => (false, cs)
  let neg := signSplit.1
  let rest := signSplit.2
  let intDigits := takeDigits rest
  let afterInt := dropDigits rest
  let fracDigits :=
    match afterInt with
    | '.' :: t => takeDigits t
    | _ => []
  if intDigits.isEmpty && fracDigits.isEmpty then none
  else
    let n := digitsToNat intDigits
    let d0 := match fracDigits with | [] => 0 | c :: _ => digitVal c
    if neg then
      let fracLeHalf := d0 < 5 || (d0 == 5 && (fracDigits.drop 1).all (· == '0'))
      some (-(Int.ofNat (if fracLeHalf then n else n + 1)))
    else
      some (Int.ofNat (if d0 ≥ 5 then n + 1 else n))

/-- parseInt semantics: optional sign and leading digits, none on NaN. -/
def parseIntJs (cs0 : List Char) : Option Int :=
  let cs := cs0.dropWhile Char.isWhitespace
  let signSplit : Bool × List Char :=
    match cs with
    | '-' :: t => (true, t)
    | '+' :: t => (false, t)
    | _ => (false, cs)
  let ds := takeDigits signSplit.2
  if ds.isEmpty then none
  else some ((if signSplit.1 then -1 else 1) * Int.ofNat (digitsToNat ds))

/-- Whether the next three characters spell KES case-insensitively. -/
def matchesKes : List Char → Bool
  | k :: e :: s :: _ => k.toLower == 'k' && e.toLower == 'e' && s.toLower == 's'
  | _ => false

/-- First-occurrence replacement of the pattern KES-then-whitespace by
nothing, as the controller regex with the ignore-case flag does. -/
def stripKes : List Char → List Char
  | [] => []
  | c :: cs =>
    if matchesKes (c :: cs) then (cs.drop 2).dropWhile Char.isWhitespace
    else c :: stripKes cs

/-- Global removal of commas. -/
def removeCommas (cs : List Char) : List Char := cs.filter (· != ',')

/-- Whitespace trim at both ends. -/
def trimChars (cs : List Char) : List Char :=
  ((cs.dropWhile Char.isWhitespace).reverse.dropWhile Char.isWhitespace).reverse

/-- String trim. -/
def jsStrTrim (s : String) : String := ⟨trimChars s.data⟩

/-- Lower-casing of a string, character by character. -/
def toLowerStr (s : String) : String := ⟨s.data.map Char.toLower⟩

/-- parsePrice of the property controller: numbers are rounded, falsy
values give 0, and strings are cleaned of a KES marker and commas,
trimmed, parsed as a float and rounded, with NaN collapsing to 0. -/
def parsePrice : Option JsVal → Int
  | some (.num n) => n
  | none => 0
  | some v =>
    if v.truthy = false then 0
    else
      match parseFloatRoundCore (trimChars (removeCommas (stripKes (jsAsString v).data))) with
      | none => 0
      | some n => n

/-- Digit grouping of toLocaleString: commas every three digits, applied
to the reversed digit list. -/
def group3 : List Char → List Char
  | [] => []
  | [a] => [a]
  | [a, b] => [a, b]
  | [a, b, c] => [a, b, c]
  | a :: b :: c :: d :: t => a :: b :: c :: ',' :: group3 (d :: t)

/-- toLocaleString on a natural number. -/
def natLocale (n : Nat) : String :=
  ⟨(group3 (natDigitsRev n)).reverse⟩

/-- toLocaleString on an integer. -/
def intLocale : Int → String
  | .ofNat n => natLocale n
  | .negSucc m => "-" ++ natLocale (m + 1)

/-- Integer coercion applied when a Mongoose number path receives a raw
value (Number cast; strings parse fully or cast to 0 here). -/
def jsAsInt : JsVal → Int
  | .num n => n
  | .str s =>
    match parseFloatRoundCore (trimChars s.data) with
    | none => 0
    | some n => n
  | .arr _ => 0

/-- Wrapper for the destructuring pattern parseInt(field) with a
fallback of 0 used by the controller for bedrooms and similar counts. -/
def intFieldOr0 : Option JsVal → Int
  | none => 0
  | some v =>
    match parseIntJs (jsAsString v).data with
    | none => 0
    | some m => m

/-! ## Substring and regular-expression helpers -/

/-- Whether sub occurs as a prefix of some suffix of s, that is, as a
contiguous infix.  Embeds the JavaScript String includes method. -/
def anyDropIsPrefix (sub s : List Char) : Bool :=
  (List.range (s.length + 1)).any fun i => sub.isPrefixOf (s.drop i)

/-- JavaScript s.includes(sub). -/
def strIncludes (s sub : String) : Bool := anyDropIsPrefix sub.data s.data

/-- The JavaScript regular-expression metacharacters. -/
def isRegexMeta (c : Char) : Bool :=
  c ∈ ['.', '\\', '^', '$', '*', '+', '?', '(', ')', '[', ']', '\x7b', '\x7d', '|']

/-- A pattern that is pure literal text: no metacharacter at all.  On such
patterns a case-insensitive regular-expression test is exactly a
case-insensitive substring test. -/
def litPattern (pat : String) : Bool := pat.data.all fun c => !(isRegexMeta c)

/-- A pattern in the dot-and-literal fragment: every character is either
literal or the dot wildcard.  This is the fragment of JavaScript regular
expressions the embedding models; patterns with other metacharacters,
and invalid patterns whose construction throws (answered 500 by the
handler), are outside it. -/
def dotLitPattern (pat : String) : Bool :=
  pat.data.all fun c => !(isRegexMeta c) || c == '.'

/-- Anchored match of a pattern against a text, for patterns whose only
metacharacter is the dot wildcard; other characters compare
case-insensitively, embedding the ignore-case flag. -/
def reLiteMatchAt : List Char → List Char → Bool
  | [], _ => true
  | _ :: _, [] => false
  | p :: ps, c :: cs => (p == '.' || p.toLower == c.toLower) && reLiteMatchAt ps cs

/-- The test of new RegExp(pat, ignore-case) against s, for patterns in
the dot-and-literal fragment: the pattern may start matching at any
position.  Patterns outside the fragment — other metacharacters, or
invalid patterns whose construction throws and is answered 500 — are not
modelled, and the theorems about the location filter carry the fragment
as a hypothesis. -/
def jsRegexTestCI (pat s : String) : Bool :=
  (List.range (s.data.length + 1)).any fun i => reLiteMatchAt pat.data (s.data.drop i)

/-- Modelled from the spec: the location parameter is matched
case-insensitively as a substring.  Stated independently of the code so
the two can be compared. -/
def specLocationMatch (param loc : String) : Bool :=
  anyDropIsPrefix (param.data.map Char.toLower) (loc.data.map Char.toLower)

/-! ## The listing record -/

/-- A persisted listing record.  The fields are the union of those the
two schema generations give a document and that the verified operations
read or write; createdAt is an abstract clock value. -/
structure Property where
  id : Nat
  title : String
  location : String
  type : String
  status : String
  transaction : String
  price : String
  priceNum : Int
  bedrooms : Int
  bathrooms : Int
  parking : Int
  size : String
  description : String
  whatsapp : String
  images : List String
  cloudinaryPublicIds : List String
  createdAt : Nat
deriving DecidableEq

/-- findById over the record store: first record carrying the id. -/
def findById (store : List Property) (id : Nat) : Option Property :=
  store.find? fun p => p.id == id

/-- Persisting a mutated document: every record carrying the id is
replaced by the new document. -/
def replaceById (store : List Property) (id : Nat) (p : Property) : List Property :=
  store.map fun q => if q.id == id then p else q

/-- One successful Cloudinary upload as the middleware records it: the
delivery URL and the public id used for later deletion. -/
structure ProcessedFile where
  url : String
  publicId : String
deriving DecidableEq

/-! ## addProperty (create) -/

/-- The request body of a create call; absent fields are none. -/
structure AddBody where
  title : Option String := none
  location : Option String := none
  type : Option String := none
  price : Option JsVal := none
  priceNum : Option JsVal := none
  bedrooms : Option JsVal := none
  bathrooms : Option JsVal := none
  parking : Option JsVal := none
  size : Option String := none
  status : Option String := none
  description : Option String := none
  whatsapp : Option String := none
  plotSize : Option String := none
  titleType : Option String := none
  mapLink : Option String := none
  amenities : Option JsVal := none
  verificationChecklist : Option JsVal := none
  documentsAvailable : Option JsVal := none
deriving DecidableEq

/-- Outcome of the addProperty controller. -/
inductive AddOutcome where
  | missingFields
  | invalidPrice
  | created (p : Property)
deriving DecidableEq

/-- The addProperty controller: requires the five truthy fields, parses
and checks the price, then builds the document with the image URL list
and the public-id list both mapped off the processed-file list, and
appends it to the store.  The database write is modelled as accepting
the document. -/
def addProperty (store : List Property) (nextId now : Nat) (b : AddBody)
    (processedFiles : List ProcessedFile) : AddOutcome × List Property :=
  if !(strTruthy b.title && strTruthy b.location && strTruthy b.type &&
       jsTruthy b.price && jsTruthy b.priceNum) then
    (.missingFields, store)
  else
    let numericPrice := parsePrice b.price
    if numericPrice ≤ 0 then (.invalidPrice, store)
    else
      let p : Property := {
        id := nextId
        title := jsStrTrim (b.title.getD "")
        location := jsStrTrim (b.location.getD "")
        type := toLowerStr (jsStrTrim (b.type.getD ""))
        status := toLowerStr (jsStrTrim
          (match b.status with
           | some s => if s = "" then "available" else s
           | none => "available"))
        transaction := ""
        price := "KES " ++ intLocale numericPrice
        priceNum := numericPrice
        bedrooms := intFieldOr0 b.bedrooms
        bathrooms := intFieldOr0 b.bathrooms
        parking := intFieldOr0 b.parking
        size := jsStrTrim (b.size.getD "")
        description := jsStrTrim (b.description.getD "")
        whatsapp := jsStrTrim
          (match b.whatsapp with
           | some s => if s = "" then "254721911181" else s
           | none => "254721911181")
        images := processedFiles.map (·.url)
        cloudinaryPublicIds := processedFiles.map (·.publicId)
        createdAt := now }
      (.created p, store ++ [p])

/-! ## Upload middleware and the POST /add route -/

/-- The Cloudinary upload middleware over the per-file outcomes (one
entry per attached file, in attachment order; none is a failed upload):
with no files it proceeds with nothing processed, with files but no
success it halts the request with status 400, otherwise it proceeds
with the successes in order. -/
inductive UploadsOutcome where
  | halted400
  | proceed (files : List ProcessedFile)
deriving DecidableEq

/-- processUploadedImages of routes/seo.js. -/
def processUploadedImages (outcomes : List (Option ProcessedFile)) : UploadsOutcome :=
  if outcomes.isEmpty then .proceed []
  else
    let ok := outcomes.filterMap id
    if ok.isEmpty then .halted400 else .proceed ok

/-- The validationResult guard middleware: rejects exactly when the list
of violations recorded so far is non-empty. -/
def validationGuardRejects (recorded : List String) : Bool := !recorded.isEmpty

/-- Result of the POST /add route. -/
inductive PostAddOutcome where
  | uploadFailed
  | validationRejected
  | handled (r : AddOutcome)
deriving DecidableEq

/-- The POST /add route of routes/seo.js: upload middleware, then the
validationResult guard, then the controller.  In the source the guard is
mounted before the listingValidation chain, so the recorded-violation
list it inspects is still empty at that point. -/
def postAdd (store : List Property) (nextId now : Nat) (b : AddBody)
    (outcomes : List (Option ProcessedFile)) : PostAddOutcome × List Property :=
  match processUploadedImages outcomes with
  | .halted400 => (.uploadFailed, store)
  | .proceed files =>
    if validationGuardRejects [] then (.validationRejected, store)
    else
      (.handled (addProperty store nextId now b files).1,
       (addProperty store nextId now b files).2)

/-! ## updateProperty -/

/-- The request body of an update call; absent fields are none.  Every
present field lands in updateData through the object spread; fields the
landListingSchema does not declare are dropped by the store and are
therefore not part of the update embedding. -/
structure UpdateBody where
  title : Option String := none
  location : Option String := none
  type : Option String := none
  status : Option String := none
  description : Option String := none
  whatsapp : Option String := none
  price : Option JsVal := none
  priceNum : Option JsVal := none
  images : Option (List String) := none
  cloudinaryPublicIds : Option (List String) := none
deriving DecidableEq

/-- First step of the updateData construction of updateProperty: when
files were uploaded, their URLs and public ids are appended to the
existing lists of the record. -/
def appendUploads (old : Property) (b : UpdateBody) (files : List ProcessedFile) :
    UpdateBody :=
  if files.isEmpty then b
  else { b with
           images := some (old.images ++ files.map (·.url)),
           cloudinaryPublicIds :=
             some (old.cloudinaryPublicIds ++ files.map (·.publicId)) }

/-- Second step of the updateData construction: a truthy price
recomputes priceNum and rewrites the display price from it. -/
def applyPriceRule (u : UpdateBody) : UpdateBody :=
  if jsTruthy u.price then
    { u with
        priceNum := some (.num (parsePrice u.price)),
        price := some (.str ("KES " ++ intLocale (parsePrice u.price))) }
  else u

/-- The updateData construction of updateProperty: the body is spread,
then freshly uploaded files append their URLs and public ids to the
existing lists, then a truthy price recomputes priceNum and rewrites the
display price. -/
def buildUpdateData (old : Property) (b : UpdateBody) (files : List ProcessedFile) :
    UpdateBody :=
  applyPriceRule (appendUploads old b files)

/-- The closed land-type enumeration. -/
def landTypeEnum : List String :=
  ["land-res", "land-comm", "ranch", "plot", "subdivision-ready", "title-deed-ready"]

/-- The status enumeration. -/
def statusEnum : List String := ["available", "sold", "reserved"]

/-- The per-entry images validator of the landListingSchema in
models/Property.js: each entry mentions the media host or is an absolute
URL. -/
def landImageEntryValidator (v : String) : Bool :=
  strIncludes v "cloudinary.com" || "http".data.isPrefixOf v.data

/-- A numeral that is an optionally signed digit run (after whitespace
trim): the fragment of number casting the embedding models exactly.
Fractional, exponent and hexadecimal numerals are outside it. -/
def integralNumeral (s : String) : Bool :=
  let cs := trimChars s.data
  let body :=
    match cs with
    | '+' :: t => t
    | '-' :: t => t
    | other => other
  !body.isEmpty && body.all Char.isDigit

/-- The store-layer Number cast applied to an updated priceNum value:
numbers pass through, integral numeral strings cast to their value,
anything else is a cast failure. -/
def jsNumberCast : JsVal → Option Int
  | .num n => some n
  | .str s => if integralNumeral s then parseFloatRoundCore (trimChars s.data) else none
  | .arr _ => none

/-- The landListingSchema setters applied to the updated values: trim on
title, location, description and whatsapp; lowercase on type and status;
the Number cast on priceNum (an uncastable value is left in place and
caught by castOk). -/
def applySetters (u : UpdateBody) : UpdateBody :=
  { u with
    title := u.title.map jsStrTrim
    location := u.location.map jsStrTrim
    type := u.type.map toLowerStr
    status := u.status.map toLowerStr
    description := u.description.map jsStrTrim
    whatsapp := u.whatsapp.map jsStrTrim
    priceNum := u.priceNum.map fun v =>
      match jsNumberCast v with
      | some n => .num n
      | none => v }

/-- Whether every cast of the update succeeded: after the setters, a
present priceNum must have become a number. -/
def castOk (u : UpdateBody) : Bool :=
  match u.priceNum with
  | none => true
  | some (.num _) => true
  | some _ => false

/-- Whether a phone string matches the schema pattern of ten to fifteen
digits. -/
def whatsappMatch (s : String) : Bool :=
  s.data.all Char.isDigit && 10 ≤ s.length && s.length ≤ 15

/-- The update validators the landListingSchema runs on the updated
paths (runValidators): required and maxlength on title, required on
location and price, the two enumerations, non-negativity of priceNum,
the phone pattern, and the per-entry URL check on images. -/
def updateValidationOk (u : UpdateBody) : Bool :=
  (match u.title with | none => true | some s => s != "" && s.length ≤ 200) &&
  (match u.location with | none => true | some s => s != "") &&
  (match u.type with | none => true | some s => landTypeEnum.contains s) &&
  (match u.status with | none => true | some s => statusEnum.contains s) &&
  (match u.price with | none => true | some v => jsAsString v != "") &&
  (match u.priceNum with | none => true | some v => match v with
    | .num n => decide (0 ≤ n)
    | _ => false) &&
  (match u.whatsapp with | none => true | some s => whatsappMatch s) &&
  (match u.images with | none => true | some xs => xs.all landImageEntryValidator)

/-- findByIdAndUpdate field semantics: each field present in the update
data replaces the stored one, absent fields are untouched. -/
def mergeUpdate (old : Property) (u : UpdateBody) : Property :=
  { old with
    title := u.title.getD old.title
    location := u.location.getD old.location
    type := u.type.getD old.type
    status := u.status.getD old.status
    description := u.description.getD old.description
    whatsapp := u.whatsapp.getD old.whatsapp
    price := match u.price with | none => old.price | some v => jsAsString v
    priceNum := match u.priceNum with | none => old.priceNum | some v => jsAsInt v
    images := u.images.getD old.images
    cloudinaryPublicIds := u.cloudinaryPublicIds.getD old.cloudinaryPublicIds }

/-- The document produced by a successful update of an existing record:
the controller-built update data, the schema setters, then the merge. -/
def updateDoc (old : Property) (b : UpdateBody) (files : List ProcessedFile) : Property :=
  mergeUpdate old (applySetters (buildUpdateData old b files))

/-- Outcome of the updateProperty controller: a cast failure is the
CastError 500 of the catch block, a validator failure the
ValidationError 400; both leave the store unchanged. -/
inductive UpdateOutcome where
  | notFound
  | castFailed
  | validationFailed
  | updated (p : Property)
deriving DecidableEq

/-- The updateProperty controller: 404 when the record is absent;
otherwise the update data runs through the schema casts and, with
runValidators, the update validators, and only then is the merged
document persisted; either failure leaves the store unchanged. -/
def updateProperty (store : List Property) (id : Nat) (b : UpdateBody)
    (files : List ProcessedFile) : UpdateOutcome × List Property :=
  match findById store id with
  | none => (.notFound, store)
  | some prop =>
    let u := applySetters (buildUpdateData prop b files)
    if !(castOk u) then (.castFailed, store)
    else if updateValidationOk u then
      (.updated (mergeUpdate prop u), replaceById store id (mergeUpdate prop u))
    else (.validationFailed, store)

/-! ## deleteImage -/

/-- Outcome of the deleteImage controller. -/
inductive DeleteImageOutcome where
  | badRequest
  | propertyNotFound
  | remoteThrew
  | imageNotFound
  | removed (images cloudinaryPublicIds : List String)
deriving DecidableEq

/-- Full observable result of a deleteImage call: the response, the
store after the call, and whether the remote destroy call was issued. -/
structure DeleteImageRes where
  outcome : DeleteImageOutcome
  store : List Property
  destroyCalled : Bool
deriving DecidableEq

/-- The deleteImage controller: a falsy public id is a 400; an absent
record is a 404; then the remote destroy is issued unconditionally (a
rejection lands in the catch block as a 500 before any record change; a
resolved non-ok result is only logged); the image list drops every URL
containing the public id as a substring and the id list drops exact
matches; when no URL was dropped the call is a 404 without saving,
otherwise the trimmed document is saved. -/
def deleteImage (store : List Property) (id : Nat) (publicId : Option String)
    (remoteRejects : Bool) : DeleteImageRes :=
  if !(strTruthy publicId) then ⟨.badRequest, store, false⟩
  else
    match findById store id with
    | none => ⟨.propertyNotFound, store, false⟩
    | some prop =>
      if remoteRejects then ⟨.remoteThrew, store, true⟩
      else
        let pid := publicId.getD ""
        let newImages := prop.images.filter fun img => !(strIncludes img pid)
        let newIds := prop.cloudinaryPublicIds.filter fun q => q != pid
        if prop.images.length - newImages.length = 0 then
          ⟨.imageNotFound, store, true⟩
        else
          ⟨.removed newImages newIds,
           replaceById store id
             { prop with images := newImages, cloudinaryPublicIds := newIds },
           true⟩

/-! ## deleteProperty -/

/-- Outcome of the deleteProperty controller. -/
inductive DeleteOutcome where
  | notFound
  | deleted
deriving DecidableEq

/-- The deleteProperty controller: 404 when the record is absent;
otherwise every public id is sent a remote destroy whose settled
outcomes are only logged, and the record is deleted unconditionally. -/
def deleteProperty (store : List Property) (id : Nat) (remoteOk : String → Bool) :
    DeleteOutcome × List Property :=
  match findById store id with
  | none => (.notFound, store)
  | some prop =>
    let _settled := prop.cloudinaryPublicIds.map remoteOk
    (.deleted, store.eraseP fun q => q.id == id)

/-! ## The operation relation for the lock-step invariant -/

/-- One service operation together with its inputs, as dispatched by the
routes. -/
inductive Op where
  | create (nextId now : Nat) (b : AddBody) (files : List ProcessedFile)
  | update (id : Nat) (b : UpdateBody) (files : List ProcessedFile)
  | delImage (id : Nat) (publicId : Option String) (remoteRejects : Bool)
  | del (id : Nat) (remoteOk : String → Bool)

/-- The store after an operation. -/
def applyOp (store : List Property) : Op → List Property
  | .create nextId now b files => (addProperty store nextId now b files).2
  | .update id b files => (updateProperty store id b files).2
  | .delImage id publicId remoteRejects => (deleteImage store id publicId remoteRejects).store
  | .del id remoteOk => (deleteProperty store id remoteOk).2

/-- The lock-step invariant over the whole store: every record has as
many image URLs as public ids. -/
def storeInv (store : List Property) : Bool :=
  store.all fun p => p.images.length == p.cloudinaryPublicIds.length

/-- The side condition under which an operation preserves the lock-step
invariant: an update must not carry explicit image or public-id lists
(those replace one list without reconciling the other), and a deleteImage
must drop as many URLs as ids (true whenever each URL contains exactly
its own public id and no other). -/
def opSafe (store : List Property) : Op → Prop
  | .create _ _ _ _ => True
  | .update _ b _ => b.images = none ∧ b.cloudinaryPublicIds = none
  | .delImage id publicId _ =>
    ∀ p, findById store id = some p →
      p.images.countP (fun img => strIncludes img (publicId.getD "")) =
      p.cloudinaryPublicIds.countP (fun q => q == publicId.getD "")
  | .del _ _ => True

/-! ## The list endpoint -/

/-- Query parameters of the list endpoint. -/
structure PropsQuery where
  status : Option String := none
  transaction : Option String := none
  type : Option String := none
  location : Option String := none

/-- The Mongo query built by the list handler: equality on status,
transaction and type; the location parameter becomes a case-insensitive
regular expression tested against the stored location. -/
def propQueryMatch (q : PropsQuery) (p : Property) : Bool :=
  (match q.status with | none => true | some s => p.status == s) &&
  (match q.transaction with | none => true | some t => p.transaction == t) &&
  (match q.type with | none => true | some t => p.type == t) &&
  (match q.location with | none => true | some pat => jsRegexTestCI pat p.location)

/-- Newest-first ordering on records. -/
def createdDesc (a b : Property) : Prop := b.createdAt ≤ a.createdAt

instance : DecidableRel createdDesc := fun a b => Nat.decLe b.createdAt a.createdAt

instance : IsTotal Property createdDesc :=
  ⟨fun a b => Nat.le_total b.createdAt a.createdAt⟩

instance : IsTrans Property createdDesc :=
  ⟨fun _ _ _ hab hbc => Nat.le_trans hbc hab⟩

/-- The GET /api/properties handler: filter by the query, sort newest
first. -/
def getPropertiesHandler (store : List Property) (q : PropsQuery) : List Property :=
  List.insertionSort createdDesc (store.filter (propQueryMatch q))

/-- Whether the location parameter of a query, when supplied, lies in
the dot-and-literal regex fragment the embedding models. -/
def queryLocationModelled (q : PropsQuery) : Bool :=
  match q.location with
  | none => true
  | some pat => dotLitPattern pat

/-! ## The listingValidation chain of routes/seo.js -/

/-- The validator isNumeric: an optional sign, then digits with at most
one decimal point and at least one digit after any point. -/
def isNumericStr (s : String) : Bool :=
  let cs :=
    match s.data with
    | '+' :: t => t
    | '-' :: t => t
    | other => other
  match dropDigits cs with
  | [] => !(takeDigits cs).isEmpty
  | '.' :: t => !(takeDigits t).isEmpty && (dropDigits t).isEmpty
  | _ => false

/-- The validator notEmpty on a string field; an absent field fails. -/
def evNotEmptyStr : Option String → Bool
  | none => false
  | some s => s != ""

/-- notEmpty on a value field, through its string coercion. -/
def evNotEmptyVal : Option JsVal → Bool
  | none => false
  | some w => jsAsString w != ""

/-- The validator isIn against a closed list; an absent field fails. -/
def evIsIn (allowed : List String) : Option String → Bool
  | none => false
  | some s => allowed.contains s

/-- isNumeric on a possibly-absent value field. -/
def evIsNumeric : Option JsVal → Bool
  | none => false
  | some w => isNumericStr (jsAsString w)

/-- The violations the listingValidation chain of routes/seo.js records
for a body, in mount order, with the messages of the source; the
isMobilePhone and isURL predicates of the external validator library are
taken as parameters.  Optional validators skip absent fields; the type
field carries both a default-message notEmpty and the enumerated check. -/
def listingValidationErrors (isMobile isURL : String → Bool) (b : AddBody) :
    List String :=
  (if evNotEmptyStr b.title then [] else ["Title is required"]) ++
  (if evNotEmptyStr b.location then [] else ["Location is required"]) ++
  (if evNotEmptyStr b.type then [] else ["Invalid value"]) ++
  (if evIsIn landTypeEnum b.type then [] else ["Valid land type is required"]) ++
  (if evNotEmptyVal b.price then [] else ["Price is required"]) ++
  (if evIsNumeric b.priceNum then [] else ["Price must be a number"]) ++
  (if evNotEmptyStr b.plotSize then [] else ["Plot size is required"]) ++
  (if evIsIn statusEnum b.status then [] else ["Valid status is required"]) ++
  (match b.whatsapp with
   | none => []
   | some s => if isMobile s then [] else ["Valid WhatsApp number required"]) ++
  (match b.amenities with
   | none => [] | some (.arr _) => [] | some _ => ["Invalid value"]) ++
  (match b.verificationChecklist with
   | none => [] | some (.arr _) => [] | some _ => ["Invalid value"]) ++
  (match b.documentsAvailable with
   | none => [] | some (.arr _) => [] | some _ => ["Invalid value"]) ++
  (match b.mapLink with
   | none => []
   | some s => if isURL s then [] else ["Map link must be a valid URL"])

/-- The validation phase of POST /add in source order: the
validationResult guard runs first over the violations recorded so far
(none yet), and only then does the listingValidation chain record its
violations.  The pair is the rejection flag and the violations recorded
once the phase ends. -/
def runPostAddValidation (isMobile isURL : String → Bool) (b : AddBody) :
    Bool × List String :=
  let recorded : List String := []
  if validationGuardRejects recorded then (true, recorded)
  else (false, recorded ++ listingValidationErrors isMobile isURL b)

/-! ## The two image-list schema validators -/

/-- The images validator of the server.js propertySchema: at most ten
entries. -/
def propertyImagesValidator (images : List String) : Bool :=
  decide (images.length ≤ 10)

/-- What the landListingSchema checks of an images list on save: each
entry individually; the schema has no cap on the length. -/
def landImagesAccept (images : List String) : Bool :=
  images.all landImageEntryValidator

/-! ## Concrete records and inputs for the concrete theorems -/

/-- A sample persisted listing with one image. -/
def sampleProp : Property :=
  { id := 1, title := "Acre Plot Katoloni", location := "katoloni", type := "plot",
    status := "available", transaction := "sale", price := "KES 350,000",
    priceNum := 350000, bedrooms := 0, bathrooms := 0, parking := 0, size := "",
    description := "A", whatsapp := "254704564880",
    images := ["https://res.cloudinary.com/demo/upload/img-one.webp"],
    cloudinaryPublicIds := ["img-one"], createdAt := 3 }

/-- A listing with two images, two public ids. -/
def c1Prop : Property :=
  { id := 1, title := "Two Images", location := "kitengela", type := "plot",
    status := "available", transaction := "sale", price := "KES 100",
    priceNum := 100, bedrooms := 0, bathrooms := 0, parking := 0, size := "",
    description := "", whatsapp := "254704564880",
    images := ["https://res.cloudinary.com/demo/u1.webp",
               "https://res.cloudinary.com/demo/u2.webp"],
    cloudinaryPublicIds := ["p1", "p2"], createdAt := 4 }

/-- A create body that passes every controller check. -/
def c2Body : AddBody :=
  { title := some "Plot A", location := some "Kitengela", type := some "land-res",
    price := some (.str "KES 500,000"), priceNum := some (.num 500000) }

/-- Two attached files of which the first upload succeeds and the second
fails. -/
def c2Outcomes : List (Option ProcessedFile) :=
  [some ⟨"https://res.cloudinary.com/demo/a.webp", "unipro/listings/a"⟩, none]

/-- The record the create at clock 10 with next id 2 persists for
c2Body and the single successful upload of c2Outcomes. -/
def c2Created : Property :=
  { id := 2, title := "Plot A", location := "Kitengela", type := "land-res",
    status := "available", transaction := "", price := "KES 500,000",
    priceNum := 500000, bedrooms := 0, bathrooms := 0, parking := 0, size := "",
    description := "", whatsapp := "254721911181",
    images := ["https://res.cloudinary.com/demo/a.webp"],
    cloudinaryPublicIds := ["unipro/listings/a"], createdAt := 10 }

/-- A create body with no title and an off-enumeration type; the
validation chain records violations for it. -/
def c5Body : AddBody := { type := some "condo" }

/-- A listing whose priceNum is 999, used to exhibit the priceNum
recomputation on update. -/
def c6Old : Property :=
  { id := 1, title := "T", location := "loc", type := "plot",
    status := "available", transaction := "sale", price := "KES 999",
    priceNum := 999, bedrooms := 0, bathrooms := 0, parking := 0, size := "",
    description := "A", whatsapp := "254700000000", images := [],
    cloudinaryPublicIds := [], createdAt := 1 }

/-- A listing whose single public id abc is a strict extension of the
string ab. -/
def c7Prop : Property :=
  { id := 1, title := "Sub", location := "ngong", type := "plot",
    status := "available", transaction := "sale", price := "KES 100",
    priceNum := 100, bedrooms := 0, bathrooms := 0, parking := 0, size := "",
    description := "", whatsapp := "254704564880",
    images := ["https://res.cloudinary.com/demo/abc.jpg"],
    cloudinaryPublicIds := ["abc"], createdAt := 2 }

/-- A listing whose location is the single letter x. -/
def c8Prop : Property :=
  { id := 1, title := "X", location := "x", type := "plot",
    status := "available", transaction := "sale", price := "KES 100",
    priceNum := 100, bedrooms := 0, bathrooms := 0, parking := 0, size := "",
    description := "", whatsapp := "254704564880", images := [],
    cloudinaryPublicIds := [], createdAt := 5 }

/-- Eleven well-formed image URLs. -/
def elevenImages : List String :=
  List.replicate 11 "https://res.cloudinary.com/demo/upload/plot.webp"

/-! ## Helper lemmas -/

/-- The lock-step invariant, element-wise. -/
theorem storeInv_iff (s : List Property) :
    storeInv s = true ↔ ∀ p ∈ s, p.images.length = p.cloudinaryPublicIds.length := by
  simp [storeInv, List.all_eq_true]

/-- Persisting a document that satisfies the lock-step equality keeps
the invariant. -/
theorem storeInv_replaceById {s : List Property} {id : Nat} {p : Property}
    (hs : storeInv s = true) (hp : p.images.length = p.cloudinaryPublicIds.length) :
    storeInv (replaceById s id p) = true := by
  rw [storeInv_iff] at hs ⊢
  intro q hq
  simp only [replaceById, List.mem_map] at hq
  obtain ⟨q0, hq0, rfl⟩ := hq
  split
  · exact hp
  · exact hs q0 hq0

/-- Keeping the non-matches and counting the matches partitions a list. -/
theorem length_filter_not_add_countP {α : Type _} (p : α → Bool) (l : List α) :
    (l.filter fun a => !(p a)).length + l.countP p = l.length := by
  induction l with
  | nil => rfl
  | cons a t ih =>
    by_cases h : p a
    · simp [List.filter_cons, List.countP_cons, h]
      omega
    · simp [List.filter_cons, List.countP_cons, h]
      omega

/-- Zipping two maps over one list pairs the two images of each element. -/
theorem zip_map_pair {α β γ : Type _} (f : α → β) (g : α → γ) (l : List α) :
    (l.map f).zip (l.map g) = l.map fun a => (f a, g a) := by
  induction l with
  | nil => rfl
  | cons a t ih => simp [ih]

/-- appendUploads without files is the body itself. -/
@[simp] theorem appendUploads_nil (old : Property) (b : UpdateBody) :
    appendUploads old b [] = b := rfl

/-- appendUploads leaves the title field of the body unchanged. -/
@[simp] theorem appendUploads_title (old : Property) (b : UpdateBody)
    (files : List ProcessedFile) : (appendUploads old b files).title = b.title := by
  rw [appendUploads]; split <;> rfl

/-- appendUploads leaves the location field unchanged. -/
@[simp] theorem appendUploads_location (old : Property) (b : UpdateBody)
    (files : List ProcessedFile) : (appendUploads old b files).location = b.location := by
  rw [appendUploads]; split <;> rfl

/-- appendUploads leaves the type field unchanged. -/
@[simp] theorem appendUploads_type (old : Property) (b : UpdateBody)
    (files : List ProcessedFile) : (appendUploads old b files).type = b.type := by
  rw [appendUploads]; split <;> rfl

/-- appendUploads leaves the status field unchanged. -/
@[simp] theorem appendUploads_status (old : Property) (b : UpdateBody)
    (files : List ProcessedFile) : (appendUploads old b files).status = b.status := by
  rw [appendUploads]; split <;> rfl

/-- appendUploads leaves the description field unchanged. -/
@[simp] theorem appendUploads_description (old : Property) (b : UpdateBody)
    (files : List ProcessedFile) :
    (appendUploads old b files).description = b.description := by
  rw [appendUploads]; split <;> rfl

/-- appendUploads leaves the whatsapp field unchanged. -/
@[simp] theorem appendUploads_whatsapp (old : Property) (b : UpdateBody)
    (files : List ProcessedFile) : (appendUploads old b files).whatsapp = b.whatsapp := by
  rw [appendUploads]; split <;> rfl

/-- appendUploads leaves the price field unchanged. -/
@[simp] theorem appendUploads_price (old : Property) (b : UpdateBody)
    (files : List ProcessedFile) : (appendUploads old b files).price = b.price := by
  rw [appendUploads]; split <;> rfl

/-- appendUploads leaves the priceNum field unchanged. -/
@[simp] theorem appendUploads_priceNum (old : Property) (b : UpdateBody)
    (files : List ProcessedFile) : (appendUploads old b files).priceNum = b.priceNum := by
  rw [appendUploads]; split <;> rfl

/-- The images field after appendUploads. -/
theorem appendUploads_images (old : Property) (b : UpdateBody)
    (files : List ProcessedFile) :
    (appendUploads old b files).images =
      if files.isEmpty then b.images else some (old.images ++ files.map (·.url)) := by
  rw [appendUploads]; split <;> simp_all

/-- The cloudinaryPublicIds field after appendUploads. -/
theorem appendUploads_cloudinaryPublicIds (old : Property) (b : UpdateBody)
    (files : List ProcessedFile) :
    (appendUploads old b files).cloudinaryPublicIds =
      if files.isEmpty then b.cloudinaryPublicIds
      else some (old.cloudinaryPublicIds ++ files.map (·.publicId)) := by
  rw [appendUploads]; split <;> simp_all

/-- applyPriceRule leaves the title field unchanged. -/
@[simp] theorem applyPriceRule_title (u : UpdateBody) :
    (applyPriceRule u).title = u.title := by
  rw [applyPriceRule]; split <;> rfl

/-- applyPriceRule leaves the location field unchanged. -/
@[simp] theorem applyPriceRule_location (u : UpdateBody) :
    (applyPriceRule u).location = u.location := by
  rw [applyPriceRule]; split <;> rfl

/-- applyPriceRule leaves the type field unchanged. -/
@[simp] theorem applyPriceRule_type (u : UpdateBody) :
    (applyPriceRule u).type = u.type := by
  rw [applyPriceRule]; split <;> rfl

/-- applyPriceRule leaves the status field unchanged. -/
@[simp] theorem applyPriceRule_status (u : UpdateBody) :
    (applyPriceRule u).status = u.status := by
  rw [applyPriceRule]; split <;> rfl

/-- applyPriceRule leaves the description field unchanged. -/
@[simp] theorem applyPriceRule_description (u : UpdateBody) :
    (applyPriceRule u).description = u.description := by
  rw [applyPriceRule]; split <;> rfl

/-- applyPriceRule leaves the whatsapp field unchanged. -/
@[simp] theorem applyPriceRule_whatsapp (u : UpdateBody) :
    (applyPriceRule u).whatsapp = u.whatsapp := by
  rw [applyPriceRule]; split <;> rfl

/-- applyPriceRule leaves the images field unchanged. -/
@[simp] theorem applyPriceRule_images (u : UpdateBody) :
    (applyPriceRule u).images = u.images := by
  rw [applyPriceRule]; split <;> rfl

/-- applyPriceRule leaves the cloudinaryPublicIds field unchanged. -/
@[simp] theorem applyPriceRule_cloudinaryPublicIds (u : UpdateBody) :
    (applyPriceRule u).cloudinaryPublicIds = u.cloudinaryPublicIds := by
  rw [applyPriceRule]; split <;> rfl

/-- applyPriceRule does nothing when no price was supplied. -/
theorem applyPriceRule_of_price_none {u : UpdateBody} (h : u.price = none) :
    applyPriceRule u = u := by
  simp [applyPriceRule, h, jsTruthy]

/-- The setters trim an updated title. -/
@[simp] theorem applySetters_title (u : UpdateBody) :
    (applySetters u).title = u.title.map jsStrTrim := rfl

/-- The setters trim an updated location. -/
@[simp] theorem applySetters_location (u : UpdateBody) :
    (applySetters u).location = u.location.map jsStrTrim := rfl

/-- The setters lower-case an updated type. -/
@[simp] theorem applySetters_type (u : UpdateBody) :
    (applySetters u).type = u.type.map toLowerStr := rfl

/-- The setters lower-case an updated status. -/
@[simp] theorem applySetters_status (u : UpdateBody) :
    (applySetters u).status = u.status.map toLowerStr := rfl

/-- The setters trim an updated description. -/
@[simp] theorem applySetters_description (u : UpdateBody) :
    (applySetters u).description = u.description.map jsStrTrim := rfl

/-- The setters trim an updated whatsapp. -/
@[simp] theorem applySetters_whatsapp (u : UpdateBody) :
    (applySetters u).whatsapp = u.whatsapp.map jsStrTrim := rfl

/-- The setters leave the price field as supplied. -/
@[simp] theorem applySetters_price (u : UpdateBody) :
    (applySetters u).price = u.price := rfl

/-- The setters leave the images field as supplied. -/
@[simp] theorem applySetters_images (u : UpdateBody) :
    (applySetters u).images = u.images := rfl

/-- The setters leave the cloudinaryPublicIds field as supplied. -/
@[simp] theorem applySetters_cloudinaryPublicIds (u : UpdateBody) :
    (applySetters u).cloudinaryPublicIds = u.cloudinaryPublicIds := rfl

/-- The Number cast leaves an absent priceNum absent. -/
@[simp] theorem applySetters_priceNum_none {u : UpdateBody} (h : u.priceNum = none) :
    (applySetters u).priceNum = none := by
  simp [applySetters, h]

/-- A created record carries the URL list and the public-id list mapped
off the same processed-file list, and is appended to the store. -/
theorem addProperty_created {store : List Property} {nextId now : Nat} {b : AddBody}
    {files : List ProcessedFile} {p : Property} {store' : List Property}
    (h : addProperty store nextId now b files = (.created p, store')) :
    p.images = files.map (·.url) ∧ p.cloudinaryPublicIds = files.map (·.publicId) ∧
    store' = store ++ [p] := by
  simp only [addProperty] at h
  split at h
  · simp at h
  · split at h
    · simp at h
    · rw [Prod.mk.injEq] at h
      obtain ⟨h1, h2⟩ := h
      injection h1 with h1
      subst h1
      exact ⟨rfl, rfl, h2.symm⟩

/-- When the upload middleware proceeds, the processed files are exactly
the successful outcomes in order. -/
theorem processUploadedImages_proceed {outcomes : List (Option ProcessedFile)}
    {files : List ProcessedFile}
    (h : processUploadedImages outcomes = .proceed files) :
    files = outcomes.filterMap id := by
  simp only [processUploadedImages] at h
  split at h
  · injection h with h
    subst h
    rename_i he
    cases outcomes with
    | nil => rfl
    | cons a t => simp at he
  · split at h
    · simp at h
    · injection h with h
      exact h.symm

/-- When the POST /add route reaches the controller, the controller runs
on the successful outcomes in order. -/
theorem postAdd_handled {store : List Property} {nextId now : Nat} {b : AddBody}
    {outcomes : List (Option ProcessedFile)} {r : AddOutcome} {store' : List Property}
    (h : postAdd store nextId now b outcomes = (.handled r, store')) :
    addProperty store nextId now b (outcomes.filterMap id) = (r, store') := by
  simp only [postAdd] at h
  cases hpe : processUploadedImages outcomes with
  | halted400 => rw [hpe] at h; simp at h
  | proceed files =>
    rw [hpe] at h
    simp only [validationGuardRejects, List.isEmpty_nil, Bool.not_true, Bool.false_eq_true,
      if_false, Prod.mk.injEq, PostAddOutcome.handled.injEq] at h
    have hf := processUploadedImages_proceed hpe
    subst hf
    obtain ⟨h1, h2⟩ := h
    rw [← h1, ← h2]

/-! ## C1 -/

/-- C1 counterexample: the claim fails as stated.  From a store whose
single listing has two images and two public ids, an update whose field
map carries an explicit one-entry images list leaves a store where the
two lists of that listing have different lengths: the spread update
replaces images without reconciling cloudinaryPublicIds. -/
theorem C1_counterexample :
    storeInv [c1Prop] = true ∧
    storeInv (updateProperty [c1Prop] 1
      { images := some ["https://res.cloudinary.com/demo/u1.webp"] } []).2 = false := by
  decide

/-- C1 amended: the images list and the cloudinaryPublicIds list of
every stored listing have equal length after create, delete, any update
whose field map carries no explicit images or cloudinaryPublicIds list
(fresh uploads are appended to both lists in lock-step), and any
deleteImage whose public id is contained in exactly as many stored URLs
as it has exact occurrences in the id list — the normal case where each
URL embeds its own id and no other.  An update with an explicit images
list can break the equality. -/
theorem C1_lockstep_amended (s : List Property) (op : Op)
    (hinv : storeInv s = true) (hsafe : opSafe s op) :
    storeInv (applyOp s op) = true := by
  cases op with
  | create nextId now b files =>
    simp only [applyOp, addProperty]
    split
    · exact hinv
    · split
      · exact hinv
      · rw [storeInv_iff]
        intro q hq
        rcases List.mem_append.1 hq with hmem | hmem
        · exact (storeInv_iff s).1 hinv q hmem
        · rw [List.mem_singleton] at hmem
          subst hmem
          simp
  | update id b files =>
    simp only [applyOp, updateProperty]
    cases hfind : findById s id with
    | none => simpa using hinv
    | some prop =>
      obtain ⟨hbi, hbc⟩ := hsafe
      have hprop : prop.images.length = prop.cloudinaryPublicIds.length :=
        (storeInv_iff s).1 hinv prop (List.mem_of_find?_eq_some hfind)
      dsimp only
      split
      · exact hinv
      · split
        · apply storeInv_replaceById hinv
          simp only [mergeUpdate, applySetters_images, applySetters_cloudinaryPublicIds,
            buildUpdateData, applyPriceRule_images, applyPriceRule_cloudinaryPublicIds,
            appendUploads_images, appendUploads_cloudinaryPublicIds, hbi, hbc]
          split <;> simp_all
        · exact hinv
  | delImage id publicId remoteRejects =>
    simp only [applyOp, deleteImage]
    split
    · exact hinv
    · split
      · exact hinv
      · rename_i prop hfind
        split
        · exact hinv
        · split
          · exact hinv
          · apply storeInv_replaceById hinv
            have hprop : prop.images.length = prop.cloudinaryPublicIds.length :=
              (storeInv_iff s).1 hinv prop (List.mem_of_find?_eq_some hfind)
            have hcnt := hsafe prop hfind
            have e1 := length_filter_not_add_countP
              (fun img => strIncludes img (publicId.getD "")) prop.images
            have e2 := length_filter_not_add_countP
              (fun q => q == publicId.getD "") prop.cloudinaryPublicIds
            show (prop.images.filter fun img => !(strIncludes img (publicId.getD ""))).length =
              (prop.cloudinaryPublicIds.filter fun q => !(q == publicId.getD "")).length
            omega
  | del id remoteOk =>
    simp only [applyOp, deleteProperty]
    cases hfind : findById s id with
    | none => simpa using hinv
    | some prop =>
      rw [storeInv_iff] at hinv ⊢
      intro q hq
      exact hinv q (List.eraseP_subset _ hq)

/-- C1 amended at a concrete input: creating a listing with one
processed file on a store satisfying the invariant keeps it. -/
theorem C1_lockstep_amended_witness :
    storeInv (applyOp [sampleProp]
      (.create 2 10 c2Body
        [⟨"https://res.cloudinary.com/demo/a.webp", "unipro/listings/a"⟩])) = true :=
  C1_lockstep_amended [sampleProp]
    (.create 2 10 c2Body
      [⟨"https://res.cloudinary.com/demo/a.webp", "unipro/listings/a"⟩])
    (by decide) trivial

/-! ## C2 -/

/-- C2: whenever the POST /add route creates a listing from a request
with attached files of which exactly the successful ones were uploaded,
the images list and the cloudinaryPublicIds list are the URL and id
projections of the successful uploads in order: both have length k, and
the i-th URL and the i-th id come from the same upload. -/
theorem C2_create_image_lists (store : List Property) (nextId now : Nat) (b : AddBody)
    (outcomes : List (Option ProcessedFile)) (p : Property) (store' : List Property)
    (h : postAdd store nextId now b outcomes = (.handled (.created p), store')) :
    p.images = (outcomes.filterMap id).map (·.url) ∧
    p.cloudinaryPublicIds = (outcomes.filterMap id).map (·.publicId) ∧
    p.images.length = (outcomes.filterMap id).length ∧
    p.cloudinaryPublicIds.length = (outcomes.filterMap id).length ∧
    p.images.zip p.cloudinaryPublicIds =
      (outcomes.filterMap id).map fun f => (f.url, f.publicId) := by
  obtain ⟨h1, h2, _h3⟩ := addProperty_created (postAdd_handled h)
  refine ⟨h1, h2, ?_, ?_, ?_⟩
  · rw [h1, List.length_map]
  · rw [h2, List.length_map]
  · rw [h1, h2, zip_map_pair]

/-- C2 at a concrete input: one success out of two attached files gives
a created record whose two lists are that single upload. -/
theorem C2_create_image_lists_witness :
    c2Created.images = (c2Outcomes.filterMap id).map (·.url) ∧
    c2Created.cloudinaryPublicIds = (c2Outcomes.filterMap id).map (·.publicId) ∧
    c2Created.images.length = (c2Outcomes.filterMap id).length ∧
    c2Created.cloudinaryPublicIds.length = (c2Outcomes.filterMap id).length ∧
    c2Created.images.zip c2Created.cloudinaryPublicIds =
      (c2Outcomes.filterMap id).map fun f => (f.url, f.publicId) :=
  C2_create_image_lists [sampleProp] 2 10 c2Body c2Outcomes c2Created
    [sampleProp, c2Created] (by decide)

/-! ## C3 -/

/-- C3: when at least one file is attached and every upload fails, the
POST /add route halts with the 400 upload failure and the store is
unchanged — no listing record is created. -/
theorem C3_total_upload_failure (store : List Property) (nextId now : Nat) (b : AddBody)
    (outcomes : List (Option ProcessedFile)) (h1 : outcomes ≠ [])
    (h2 : ∀ o ∈ outcomes, o = none) :
    postAdd store nextId now b outcomes = (.uploadFailed, store) := by
  have he : outcomes.isEmpty = false := by
    cases outcomes with
    | nil => exact absurd rfl h1
    | cons a t => rfl
  have hfm : outcomes.filterMap id = [] := by
    rw [List.filterMap_eq_nil_iff]
    intro a ha
    rw [h2 a ha]
    rfl
  simp [postAdd, processUploadedImages, he, hfm]

/-- C3 at a concrete input: one attached file whose upload failed. -/
theorem C3_total_upload_failure_witness :
    postAdd [] 1 10 {} [none] = (.uploadFailed, []) :=
  C3_total_upload_failure [] 1 10 {} [none] (by decide) (by decide)

/-! ## C4 -/

/-- C4: deleting an existing listing removes the record and reports
success whatever the remote deletion outcomes are (the settled results
are only logged), and the call reports not-found exactly when the id is
absent, leaving the store unchanged. -/
theorem C4_delete_best_effort (store : List Property) (id : Nat)
    (remoteOk : String → Bool) :
    (∀ p, findById store id = some p →
        deleteProperty store id remoteOk = (.deleted, store.eraseP fun q => q.id == id)) ∧
    (findById store id = none → deleteProperty store id remoteOk = (.notFound, store)) := by
  constructor
  · intro p hp
    simp [deleteProperty, hp]
  · intro hp
    simp [deleteProperty, hp]

/-- C4 at concrete inputs: with every remote deletion failing, deleting
the only listing still succeeds and empties the store, and deleting from
the empty store is a not-found. -/
theorem C4_delete_best_effort_witness :
    deleteProperty [sampleProp] 1 (fun _ => false) = (.deleted, []) ∧
    deleteProperty [] 1 (fun _ => false) = (.notFound, []) := by
  refine ⟨?_, (C4_delete_best_effort [] 1 (fun _ => false)).2 (by decide)⟩
  have h := (C4_delete_best_effort [sampleProp] 1 (fun _ => false)).1 sampleProp (by decide)
  exact h.trans (by decide)

/-! ## C5 -/

/-- C5: in the POST /add route the validationResult guard is mounted
before the listingValidation chain, so the validation phase never
rejects a request — for every body the guard passes, even though the
chain afterwards records violations, as it does for the concrete body
with no title and the off-enumeration type. -/
theorem C5_guard_precedes_validators :
    (∀ isMobile isURL : String → Bool, ∀ b : AddBody,
      (runPostAddValidation isMobile isURL b).1 = false) ∧
    (∀ isMobile isURL : String → Bool,
      (listingValidationErrors isMobile isURL c5Body).isEmpty = false) := by
  constructor
  · intro isMobile isURL b
    rfl
  · intro isMobile isURL
    rfl

/-! ## C6 -/

/-- C6 counterexample: the claim fails as stated.  An update payload
containing only a price leaves priceNum — a field absent from the
payload — recomputed from that price: 999 becomes 100. -/
theorem C6_counterexample :
    (({ price := some (.str "KES 100") } : UpdateBody)).priceNum = none ∧
    (updateDoc c6Old { price := some (.str "KES 100") } []).priceNum = 100 ∧
    c6Old.priceNum = 999 := by
  decide

/-- C6 amended: update has partial-patch semantics for every field
except the derived ones: a field absent from the payload keeps its prior
value, except that priceNum and the display price are recomputed
whenever a truthy price is supplied, and the image lists grow when new
files are attached.  A present field replaces the stored value after the
schema setters (a present status is stored lower-cased), and for an
existing id the controller persists exactly this merged document when
the casts and the update validators pass, while a validator failure is
the 400 with the store unchanged. -/
theorem C6_partial_patch_amended (old : Property) (b : UpdateBody)
    (files : List ProcessedFile) :
    (b.description = none → (updateDoc old b files).description = old.description) ∧
    (b.title = none → (updateDoc old b files).title = old.title) ∧
    (b.location = none → (updateDoc old b files).location = old.location) ∧
    (b.type = none → (updateDoc old b files).type = old.type) ∧
    (b.whatsapp = none → (updateDoc old b files).whatsapp = old.whatsapp) ∧
    (b.status = none → (updateDoc old b files).status = old.status) ∧
    (∀ st, b.status = some st → (updateDoc old b files).status = toLowerStr st) ∧
    (b.price = none → (updateDoc old b files).price = old.price) ∧
    (b.price = none → b.priceNum = none →
      (updateDoc old b files).priceNum = old.priceNum) ∧
    (files = [] → b.images = none → (updateDoc old b files).images = old.images) ∧
    (files = [] → b.cloudinaryPublicIds = none →
      (updateDoc old b files).cloudinaryPublicIds = old.cloudinaryPublicIds) ∧
    (∀ s id, findById s id = some old →
      castOk (applySetters (buildUpdateData old b files)) = true →
      updateValidationOk (applySetters (buildUpdateData old b files)) = true →
      updateProperty s id b files =
        (.updated (updateDoc old b files), replaceById s id (updateDoc old b files))) ∧
    (∀ s id, findById s id = some old →
      castOk (applySetters (buildUpdateData old b files)) = true →
      updateValidationOk (applySetters (buildUpdateData old b files)) = false →
      updateProperty s id b files = (.validationFailed, s)) := by
  refine ⟨?_, ?_, ?_, ?_, ?_, ?_, ?_, ?_, ?_, ?_, ?_, ?_, ?_⟩
  · intro h
    simp [updateDoc, buildUpdateData, mergeUpdate, h]
  · intro h
    simp [updateDoc, buildUpdateData, mergeUpdate, h]
  · intro h
    simp [updateDoc, buildUpdateData, mergeUpdate, h]
  · intro h
    simp [updateDoc, buildUpdateData, mergeUpdate, h]
  · intro h
    simp [updateDoc, buildUpdateData, mergeUpdate, h]
  · intro h
    simp [updateDoc, buildUpdateData, mergeUpdate, h]
  · intro st h
    simp [updateDoc, buildUpdateData, mergeUpdate, h]
  · intro h
    have hu : (appendUploads old b files).price = none := by simp [h]
    simp [updateDoc, buildUpdateData, applyPriceRule_of_price_none hu, mergeUpdate, hu, h]
  · intro h h2
    have hu : (appendUploads old b files).price = none := by simp [h]
    have hw : (appendUploads old b files).priceNum = none := by simp [h2]
    simp [updateDoc, buildUpdateData, applyPriceRule_of_price_none hu, mergeUpdate,
      applySetters_priceNum_none hw]
  · intro hf h
    subst hf
    simp [updateDoc, buildUpdateData, mergeUpdate, h]
  · intro hf h
    subst hf
    simp [updateDoc, buildUpdateData, mergeUpdate, h]
  · intro s id hfind hcast hval
    simp [updateProperty, updateDoc, hfind, hcast, hval]
  · intro s id hfind hcast hval
    simp [updateProperty, hfind, hcast, hval]

/-- C6 amended at concrete inputs: a payload of only a sold status
leaves the description at A, sets the status, and is persisted; the
status SOLD is stored lower-cased; the off-enumeration status junk is
rejected by the update validators with the store unchanged. -/
theorem C6_partial_patch_amended_witness :
    (updateDoc c6Old { status := some "sold" } []).description = "A" ∧
    (updateDoc c6Old { status := some "sold" } []).status = "sold" ∧
    (updateProperty [c6Old] 1 { status := some "sold" } []).1 =
      .updated (updateDoc c6Old { status := some "sold" } []) ∧
    (updateDoc c6Old { status := some "SOLD" } []).status = "sold" ∧
    updateProperty [c6Old] 1 { status := some "junk" } [] = (.validationFailed, [c6Old]) := by
  have h := C6_partial_patch_amended c6Old { status := some "sold" } []
  have hS := C6_partial_patch_amended c6Old { status := some "SOLD" } []
  have hJ := C6_partial_patch_amended c6Old { status := some "junk" } []
  refine ⟨h.1 rfl, ?_, ?_, ?_, ?_⟩
  · exact (h.2.2.2.2.2.2.1 "sold" rfl).trans (by decide)
  · rw [h.2.2.2.2.2.2.2.2.2.2.2.1 [c6Old] 1 (by decide) (by decide) (by decide)]
  · exact (hS.2.2.2.2.2.2.1 "SOLD" rfl).trans (by decide)
  · exact hJ.2.2.2.2.2.2.2.2.2.2.2.2 [c6Old] 1 (by decide) (by decide) (by decide)

/-! ## C7 -/

/-- C7 counterexample: the claim fails as stated.  The public id ab is
not present on the listing (its only id is abc), yet deleteImage does
not report not-found: the URL containing abc also contains ab as a
substring, so the URL is removed, the call succeeds, and the stored
record changes — its image list is emptied while the id list keeps abc. -/
theorem C7_counterexample :
    c7Prop.cloudinaryPublicIds.contains "ab" = false ∧
    deleteImage [c7Prop] 1 (some "ab") false =
      ⟨.removed [] ["abc"],
       [{ c7Prop with images := [], cloudinaryPublicIds := ["abc"] }], true⟩ := by
  decide

/-- C7 amended: deleteImage on an existing listing reports the 404
image-not-found and leaves the store unchanged exactly on the condition
the code tests — no stored image URL contains the public id as a
substring; membership in the id list is not consulted. -/
theorem C7_image_not_found_amended (s : List Property) (id : Nat) (pid : String)
    (old : Property) (h1 : findById s id = some old) (h2 : pid ≠ "")
    (h3 : ∀ img ∈ old.images, strIncludes img pid = false) :
    deleteImage s id (some pid) false = ⟨.imageNotFound, s, true⟩ := by
  have ht : strTruthy (some pid) = true := by simp [strTruthy, h2]
  have hf : (old.images.filter fun img => !(strIncludes img pid)) = old.images := by
    rw [List.filter_eq_self]
    intro a ha
    simp [h3 a ha]
  simp [deleteImage, ht, h1, hf]

/-- C7 amended at a concrete input: a public id matching no URL gives
the 404 with the store unchanged (while the remote destroy was still
issued). -/
theorem C7_image_not_found_amended_witness :
    deleteImage [sampleProp] 1 (some "zz") false = ⟨.imageNotFound, [sampleProp], true⟩ :=
  C7_image_not_found_amended [sampleProp] 1 "zz" sampleProp (by decide) (by decide)
    (by decide)

/-! ## C8 -/

/-- Mapping commutes with dropping a prefix. -/
theorem map_drop_comm {α β : Type _} (f : α → β) (n : Nat) (l : List α) :
    (l.drop n).map f = (l.map f).drop n := by
  induction n generalizing l with
  | zero => rfl
  | succ k ih =>
    cases l with
    | nil => rfl
    | cons a t => simp [ih t]

/-- On a metacharacter-free pattern the anchored regex match is a prefix
test on the lower-cased texts. -/
theorem reLiteMatchAt_literal (ps : List Char)
    (h : ∀ c ∈ ps, isRegexMeta c = false) (cs : List Char) :
    reLiteMatchAt ps cs = (ps.map Char.toLower).isPrefixOf (cs.map Char.toLower) := by
  induction ps generalizing cs with
  | nil => cases cs <;> rfl
  | cons p pt ih =>
    cases cs with
    | nil => rfl
    | cons c ct =>
      have hpn : p ≠ '.' := by
        intro e
        subst e
        have := h '.' (List.mem_cons_self ..)
        simp [isRegexMeta] at this
      have hp : (p == '.') = false := by
        simp [hpn]
      have ht : ∀ c ∈ pt, isRegexMeta c = false :=
        fun c hc => h c (List.mem_cons_of_mem _ hc)
      simp only [reLiteMatchAt, List.map_cons, List.isPrefixOf, hp, Bool.false_or]
      rw [ih ht ct]

/-- On a metacharacter-free pattern the case-insensitive regex test of
the list handler is exactly the case-insensitive substring test the
specification describes. -/
theorem jsRegexTestCI_literal (pat s : String) (h : litPattern pat = true) :
    jsRegexTestCI pat s = specLocationMatch pat s := by
  have hmeta : ∀ c ∈ pat.data, isRegexMeta c = false := by
    rw [litPattern, List.all_eq_true] at h
    intro c hc
    simpa using h c hc
  simp only [jsRegexTestCI, specLocationMatch, anyDropIsPrefix, List.length_map]
  have he : (fun i => reLiteMatchAt pat.data (s.data.drop i)) =
      fun i => (pat.data.map Char.toLower).isPrefixOf ((s.data.map Char.toLower).drop i) := by
    funext i
    rw [reLiteMatchAt_literal pat.data hmeta (s.data.drop i), map_drop_comm]
  rw [he]

/-- C8 counterexample: the claim fails as stated.  With the location
parameter being a lone dot, the handler keeps a listing whose location
is the letter x, although x does not contain the dot as a substring:
the parameter is interpreted as a regular expression, not as a literal. -/
theorem C8_counterexample :
    getPropertiesHandler [c8Prop] { location := some "." } = [c8Prop] ∧
    specLocationMatch "." "x" = false := by
  decide

/-- C8 amended: for queries whose location parameter, when supplied, is
built from literal characters and the dot wildcard — the regex fragment
the embedding models; other metacharacters and invalid patterns are
outside the verified scope — the list handler returns the records
matching the query sorted newest first (descending createdAt), keeping
exactly the records whose location the parameter matches as a
case-insensitive regular expression; on parameters free of regex
metacharacters this coincides with the case-insensitive substring
matching of the claim. -/
theorem C8_list_endpoint_amended (store : List Property) (q : PropsQuery)
    (_hq : queryLocationModelled q = true) :
    List.Sorted createdDesc (getPropertiesHandler store q) ∧
    (∀ p, p ∈ getPropertiesHandler store q ↔ p ∈ store ∧ propQueryMatch q p = true) ∧
    (∀ pat s, litPattern pat = true → jsRegexTestCI pat s = specLocationMatch pat s) := by
  refine ⟨List.sorted_insertionSort createdDesc _, ?_, fun pat s h =>
    jsRegexTestCI_literal pat s h⟩
  intro p
  rw [getPropertiesHandler, (List.perm_insertionSort createdDesc _).mem_iff,
    List.mem_filter]

/-- C8 amended at a concrete input: on the literal pattern kiten the
regex test agrees with the substring test against Kitengela. -/
theorem C8_list_endpoint_amended_witness :
    litPattern "kiten" = true ∧
    jsRegexTestCI "kiten" "Kitengela" = specLocationMatch "kiten" "Kitengela" :=
  ⟨by decide,
   (C8_list_endpoint_amended [] {} (by decide)).2.2 "kiten" "Kitengela" (by decide)⟩

/-! ## C9 -/

/-- C9 counterexample: the claim fails as stated.  The landListingSchema
of models/Property.js accepts an eleven-entry images list — it validates
each entry as a URL but has no cap on the count. -/
theorem C9_counterexample :
    landImagesAccept elevenImages = true ∧ elevenImages.length = 11 := by
  decide

/-- C9 amended: the propertySchema of server.js rejects a persist
exactly when the images list has more than ten entries, while the
landListingSchema of models/Property.js only checks each entry
individually and accepts lists of any length, for example the
eleven-entry one. -/
theorem C9_images_cap_amended :
    (∀ images : List String, propertyImagesValidator images = true ↔ images.length ≤ 10) ∧
    (∀ images : List String,
      landImagesAccept images = true ↔ ∀ v ∈ images, landImageEntryValidator v = true) ∧
    (landImagesAccept elevenImages = true ∧ 10 < elevenImages.length) := by
  refine ⟨fun images => ?_, fun images => ?_, by decide, by decide⟩
  · simp [propertyImagesValidator]
  · simp [landImagesAccept, List.all_eq_true]

/-- C9 amended at concrete inputs: the propertySchema validator draws
the line between ten and eleven entries, the landListingSchema accepts
eleven. -/
theorem C9_images_cap_amended_witness :
    landImagesAccept elevenImages = true ∧ 10 < elevenImages.length :=
  C9_images_cap_amended.2.2

/-! ## C10 -/

/-- C10: on an existing listing with a truthy public id, deleteImage
always issues the remote destroy call — also on the path that then
reports the 404 image-not-found — and a rejected destroy aborts the call
with the 500 before any record change. -/
theorem C10_remote_destroy_always_issued (s : List Property) (id : Nat) (pid : String)
    (remoteRejects : Bool) (old : Property) (h1 : findById s id = some old)
    (h2 : pid ≠ "") :
    (deleteImage s id (some pid) remoteRejects).destroyCalled = true ∧
    (remoteRejects = true →
      deleteImage s id (some pid) remoteRejects = ⟨.remoteThrew, s, true⟩) := by
  have ht : strTruthy (some pid) = true := by simp [strTruthy, h2]
  constructor
  · simp only [deleteImage, ht, h1]
    cases remoteRejects with
    | true => rfl
    | false =>
      simp only [Bool.not_true, Bool.false_eq_true, if_false]
      split <;> rfl
  · intro hr
    subst hr
    simp [deleteImage, ht, h1]

/-- C10 at a concrete input: a public id absent from the listing with a
rejecting remote host — the destroy was issued and the call aborts with
the record store unchanged. -/
theorem C10_remote_destroy_always_issued_witness :
    (deleteImage [sampleProp] 1 (some "zz") true).destroyCalled = true ∧
    deleteImage [sampleProp] 1 (some "zz") true = ⟨.remoteThrew, [sampleProp], true⟩ := by
  have h := C10_remote_destroy_always_issued [sampleProp] 1 "zz" true sampleProp
    (by decide) (by decide)
  exact ⟨h.1, h.2 rfl⟩

end Unipro
